import Mathlib

/-!
Verification development for the issue-sync and archive-job core of the
repository.  The Python source is shallowly embedded: pure fragments become
Lean functions, HTTP interactions are modelled by threading an explicit list
or stream of responses, and the document store is modelled as a map from
entity ids to documents (association lists of field names to values).
-/

namespace CaptainTool

/-! ## Payload mapping (projects/utilities.py)

The summary fields of the two issue-payload builders.  Only the summary is
modelled here because the claims are about the truncation and ellipsis
behaviour of the summary text.
-/

/-- Summary field built by get_jira_requirement_payload (utilities.py lines
44-50): if the requirement text exceeds 200 characters it is truncated to
its first 200 characters; an ellipsis is appended in both branches of the
source conditional. -/
def get_jira_requirement_payload_summary (req_id req_text : String) : String :=
  if req_text.length > 200 then
    "[" ++ req_id ++ "] " ++ req_text.take 200 ++ "..."
  else
    "[" ++ req_id ++ "] " ++ req_text ++ "..."

/-- Summary field built by get_jira_testcase_payload (utilities.py line 86):
title truncated to 200 characters with an appended ellipsis only when the
title exceeds 200 characters. -/
def get_jira_testcase_payload_summary (title : String) : String :=
  if title.length > 200 then title.take 200 ++ "..." else title

/-! ## Document store (gcp/firestore.py)

A Firestore document is an association list of field names to string
values; `doc.update(fields)` merges the given fields into the document,
leaving every other field unchanged.  A store maps entity ids to documents.
-/

/-- One Firestore document: field name to value. -/
def Doc : Type := List (String × String)

/-- The documents of one collection, keyed by entity id. -/
def Store : Type := String → Doc

/-- Set one field of a document, replacing an existing binding. -/
def setField : Doc → String → String → Doc
  | [], k, v => [(k, v)]
  | (k0, v0) :: rest, k, v =>
      if k0 = k then (k, v) :: rest else (k0, v0) :: setField rest k v

/-- Read one field of a document. -/
def getField : Doc → String → Option String
  | [], _ => none
  | (k0, v0) :: rest, k => if k0 = k then some v0 else getField rest k

/-- Firestore document update: merge the given fields into the document. -/
def updateDoc (d : Doc) (fields : List (String × String)) : Doc :=
  fields.foldl (fun acc kv => setField acc kv.1 kv.2) d

/-- FirestoreDB.update_testcase / update_requirement (firestore.py lines
209-225): a targeted partial-field write to the document with the given id;
all other documents are untouched. -/
def update_entity (s : Store) (id : String) (fields : List (String × String)) :
    Store :=
  fun x => if x = id then updateDoc (s x) fields else s x

/-! ## Reconciliation (sync_entities_on_alm, utilities.py lines 110-197;
the same per-id logic appears in sync_testcases_on_alm,
background_functions.py lines 130-165).

A discovered Jira issue is already normalized to key, browse url and label
list by the search client. -/

/-- A normalized external issue as returned by the label search. -/
structure Issue where
  key : String
  url : String
  labels : List String
deriving DecidableEq

/-- The first issue in list order whose label set contains the entity id
(the next(...) generator expression of the source). -/
def firstMatch (issues : List Issue) (id : String) : Option Issue :=
  issues.find? (fun issue => issue.labels.contains id)

/-- The fields written for one entity id: on a match the issue key, the
browse url and toolCreated SUCCESS; otherwise toolCreated FAILED. -/
def syncFields (issues : List Issue) (id : String) : List (String × String) :=
  match firstMatch issues id with
  | some m =>
      [("toolIssueKey", m.key), ("toolIssueLink", m.url),
       ("toolCreated", "SUCCESS")]
  | none => [("toolCreated", "FAILED")]

/-- The per-id update loop of sync_entities_on_alm. -/
def syncLoop (issues : List Issue) : List String → Store → Store
  | [], s => s
  | id :: rest, s =>
      syncLoop issues rest (update_entity s id (syncFields issues id))

/-- sync_entities_on_alm: returns unchanged on an empty id list, otherwise
updates every requested id according to the label match. -/
def sync_entities_on_alm (issues : List Issue) (entity_ids : List String)
    (s : Store) : Store :=
  if entity_ids.isEmpty then s else syncLoop issues entity_ids s

/-! ## Jira client (tools/jira/client.py)

HTTP interactions are modelled by threading an explicit finite list of
responses: each request consumes the next response of the list.  Token
refreshes go to a separate OAuth endpoint and are only counted. -/

/-- One HTTP response to an issue create or update request. -/
structure HttpResponse where
  status : Nat
  retryAfter : Option Nat
deriving DecidableEq

/-- The observable outcome of a client call. -/
inductive CallResult where
  | ok
  | success
  | gaveUp
  | raised (code : Nat)
  | noResponse
deriving DecidableEq

/-- The outcome of a create call together with its consumption of the
response list and its request and refresh counts. -/
structure CallOut where
  result : CallResult
  remaining : List HttpResponse
  attempts : Nat
  refreshes : Nat
deriving DecidableEq

/-- create_one_testcase, request part (client.py lines 209-221): post the
payload; on a 401 refresh the token once, retry once, and raise on a
non-2xx retry status; any other non-2xx status raises directly. -/
def create_one_testcase_request : List HttpResponse → CallOut
  | [] => ⟨.noResponse, [], 0, 0⟩
  | r :: rest =>
      if r.status == 401 then
        match rest with
        | [] => ⟨.noResponse, [], 1, 1⟩
        | r2 :: rest2 =>
            if r2.status ≥ 400 then ⟨.raised r2.status, rest2, 2, 1⟩
            else ⟨.ok, rest2, 2, 1⟩
      else if r.status ≥ 400 then ⟨.raised r.status, rest, 1, 0⟩
      else ⟨.ok, rest, 1, 0⟩

/-- create_bulk_testcases, request part (client.py lines 287-298): same
401-refresh-retry skeleton as the single create. -/
def create_bulk_issues_request : List HttpResponse → CallOut
  | [] => ⟨.noResponse, [], 0, 0⟩
  | r :: rest =>
      if r.status == 401 then
        match rest with
        | [] => ⟨.noResponse, [], 1, 1⟩
        | r2 :: rest2 =>
            if r2.status ≥ 400 then ⟨.raised r2.status, rest2, 2, 1⟩
            else ⟨.ok, rest2, 2, 1⟩
      else if r.status ≥ 400 then ⟨.raised r.status, rest, 1, 0⟩
      else ⟨.ok, rest, 1, 0⟩

/-- The outcome of an update call, additionally recording the sleeps
performed on rate limiting. -/
structure UpdOut where
  result : CallResult
  remaining : List HttpResponse
  attempts : Nat
  refreshes : Nat
  sleeps : List Nat
deriving DecidableEq

/-- How an exception from the recursive 401 retry of update_testcase
surfaces at the outer call: a normal return of the recursion (True or
False) is followed by raise_for_status on the original 401 response, while
an exception of the recursion propagates unchanged. -/
def propagate401 : CallResult → CallResult
  | .success => .raised 401
  | .gaveUp => .raised 401
  | r => r

/-- The attempt loop of update_testcase (client.py lines 323-344), with the
remaining loop iterations as second argument.  Each iteration issues a put:
a 401 triggers a token refresh and a full recursive call (new_access_token
True) whose result is discarded before raise_for_status raises on the 401;
a 204 returns True; a 429 reads Retry-After (default 5), sleeps, and then
reaches raise_for_status, which raises; any other non-2xx raises; a 2xx
other than 204 falls through and loops.  After 5 iterations the call
returns False. -/
def updGo : List HttpResponse → Nat → UpdOut
  | trace, 0 => ⟨.gaveUp, trace, 0, 0, []⟩
  | [], _ + 1 => ⟨.noResponse, [], 0, 0, []⟩
  | r :: rest, k + 1 =>
      if r.status == 401 then
        let o := updGo rest 5
        ⟨propagate401 o.result, o.remaining, o.attempts + 1, o.refreshes + 1,
         o.sleeps⟩
      else if r.status == 204 then ⟨.success, rest, 1, 0, []⟩
      else if r.status == 429 then
        ⟨.raised 429, rest, 1, 0, [r.retryAfter.getD 5]⟩
      else if r.status ≥ 400 then ⟨.raised r.status, rest, 1, 0, []⟩
      else
        let o := updGo rest k
        ⟨o.result, o.remaining, o.attempts + 1, o.refreshes, o.sleeps⟩

/-- update_testcase (client.py lines 300-344): the attempt loop entered
with a budget of 5 iterations. -/
def update_testcase_request (trace : List HttpResponse) : UpdOut :=
  updGo trace 5

/-- A raw issue of a search response page before normalization. -/
structure RawIssue where
  key : String
  labels : List String
deriving DecidableEq

/-- One response to a paginated search request.  The continuation token of
the source only feeds the next request payload and is not otherwise
observable, so it is not modelled. -/
structure SearchResponse where
  status : Nat
  rawIssues : List RawIssue
  isLast : Bool
deriving DecidableEq

/-- Normalization performed on each page (client.py lines 402-408): key,
browse url derived from the cloud domain, and label list. -/
def normalizeIssues (cloud_domain : String) (raw : List RawIssue) :
    List Issue :=
  raw.map (fun ri => ⟨ri.key, cloud_domain ++ "/browse/" ++ ri.key, ri.labels⟩)

/-- The client call outcome of the paginated search. -/
inductive SearchOut where
  | ok (issues : List Issue) (refreshes : Nat)
  | raised (code : Nat) (refreshes : Nat)
deriving DecidableEq

/-- The while-not-is-last loop of search_issues_by_label (client.py lines
370-411).  respond gives the response to the i-th request; fuel bounds how
many loop iterations we are willing to observe, and none means the loop is
still running after that many iterations.  A 401 refreshes once and retries
once, raising if the retry is non-2xx; any other response, of any status,
has its body consumed directly. -/
def searchGo (cloud_domain : String) (respond : Nat → SearchResponse) :
    Nat → Nat → List Issue → Nat → Option SearchOut
  | 0, _, _, _ => none
  | fuel + 1, i, acc, refr =>
      let r := respond i
      if r.status == 401 then
        let r2 := respond (i + 1)
        if r2.status ≥ 400 then some (.raised r2.status (refr + 1))
        else
          let acc2 := acc ++ normalizeIssues cloud_domain r2.rawIssues
          if r2.isLast then some (.ok acc2 (refr + 1))
          else searchGo cloud_domain respond fuel (i + 2) acc2 (refr + 1)
      else
        let acc2 := acc ++ normalizeIssues cloud_domain r.rawIssues
        if r.isLast then some (.ok acc2 refr)
        else searchGo cloud_domain respond fuel (i + 1) acc2 refr

/-- search_issues_by_label: run the page loop from an empty accumulator. -/
def search_issues_by_label (cloud_domain : String)
    (respond : Nat → SearchResponse) (fuel : Nat) : Option SearchOut :=
  searchGo cloud_domain respond fuel 0 [] 0

/-- A response stream on which the tracker never sets the last-page flag. -/
def neverLastStream : Nat → SearchResponse := fun _ => ⟨200, [], false⟩

/-- A 401 response for the create and update models. -/
def mk401 : HttpResponse := ⟨401, none⟩

/-- A stream whose first response is a 401 and whose retry returns one full
final page. -/
def pageRespond401 (raw : List RawIssue) : Nat → SearchResponse :=
  fun n => if n == 0 then ⟨401, [], false⟩ else ⟨200, raw, true⟩

/-- The concrete response list for the rate-limit evaluation: a 429 with
Retry-After 7 followed by an available 204. -/
def trace429 : List HttpResponse := [⟨429, some 7⟩, ⟨204, none⟩]

/-- Same with the Retry-After header absent. -/
def trace429NoHeader : List HttpResponse := [⟨429, none⟩, ⟨204, none⟩]

/-- The concrete response list for the update 401 evaluation: two
consecutive 401s, then a 204. -/
def upd401Trace : List HttpResponse := [⟨401, none⟩, ⟨401, none⟩, ⟨204, none⟩]

/-! ## Sync orchestrator selection and batching
(background_issue_creation_on_alm, utilities.py lines 216-359) -/

/-- The sync-relevant attributes of an internal entity. -/
structure SyncEntity where
  change_analysis_status : String
  toolCreated : Option String
deriving DecidableEq

/-- Selection filter for requirements (utilities.py lines 256-261):
change_analysis_status NEW and toolCreated (default empty) not SUCCESS. -/
def newRequirements (requirements : List SyncEntity) : List SyncEntity :=
  requirements.filter
    (fun r => r.change_analysis_status == "NEW"
      && (r.toolCreated.getD "" != "SUCCESS"))

/-- Selection filter for testcases (utilities.py lines 296-301):
change_analysis_status NEW and toolCreated not SUCCESS. -/
def newTestcases (testcases : List SyncEntity) : List SyncEntity :=
  testcases.filter
    (fun t => t.change_analysis_status == "NEW"
      && (t.toolCreated != some "SUCCESS"))

/-- The fixed-size batching of the creation loops, batch_size 40: the
batches visited by range(0, len, 40). -/
def chunks40 {α : Type} (l : List α) : List (List α) :=
  if l.isEmpty then [] else l.take 40 :: chunks40 (l.drop 40)
termination_by l.length
decreasing_by
  rw [List.length_drop]
  have hl : 0 < l.length := by
    cases l with
    | nil => simp [List.isEmpty] at *
    | cons a t => simp
  omega

/-- The number of create_bulk calls issued by one run of the orchestrator:
one per batch of the filtered requirement list plus one per batch of the
filtered testcase list (each batch body catches its own exceptions, so
every batch issues its call). -/
def bulkCreateCalls (requirements testcases : List SyncEntity) : Nat :=
  (chunks40 (newRequirements requirements)).length
    + (chunks40 (newTestcases testcases)).length

/-- Sample requirement list in which every NEW entity already succeeded. -/
def reqs0 : List SyncEntity :=
  [⟨"NEW", some "SUCCESS"⟩, ⟨"UNCHANGED", none⟩]

/-- Sample testcase list in which every NEW entity already succeeded. -/
def tcs0 : List SyncEntity :=
  [⟨"NEW", some "SUCCESS"⟩, ⟨"DEPRECATED", some "FAILED"⟩]

/-! ## Archive job engine (background_functions.py lines 223-377 and
gcp/firestore.py lines 228-298)

The object store is modelled by a fetch oracle per url and by the outcome
of the final archive upload; the job record writes are collected in
order. -/

/-- The job status values stored by the engine. -/
inductive JobStatus where
  | pending
  | in_progress
  | completed
  | failed
deriving DecidableEq

/-- One call to update_download_job_status (firestore.py lines 278-298):
the status plus the optional result or error fields merged into the job
document. -/
structure StatusWrite where
  status : JobStatus
  fileName : Option String
  resultUrl : Option String
  error : Option String
deriving DecidableEq

/-- The in_progress write issued when a task starts. -/
def wInProgress : StatusWrite := ⟨.in_progress, none, none, none⟩

/-- A failure write carrying an error message. -/
def wFailed (e : String) : StatusWrite := ⟨.failed, none, none, some e⟩

/-- A completion write carrying the archive name and its url. -/
def wCompleted (fileName resultUrl : String) : StatusWrite :=
  ⟨.completed, some fileName, some resultUrl, none⟩

/-- The observable outcome of one archive task run: its job-status writes
in order, the entries written into the archive, and how many uploads were
performed. -/
structure ZipRun where
  writes : List StatusWrite
  entries : List (String × String)
  uploads : Nat
deriving DecidableEq

/-- The url.startswith check of the source, as a prefix test on the
character list. -/
def startsWithGs (url : String) : Bool :=
  List.isPrefixOf "gs://".toList url.toList

/-- The url.split('.')[-1] expression of the source: the text after the
last dot, or the whole url when it has no dot. -/
def extOf (url : String) : String :=
  String.mk
    (url.toList.foldl (fun acc c => if c = '.' then [] else acc.concat c) [])

/-- The per-url loop shared by the zip tasks: non-gs urls are skipped, a
fetch failure is logged and skipped, and a fetched file is written under
the deterministic name zipName.ext. -/
def zipEntriesFromUrls (zipName : String)
    (fetch : String → Except String String) :
    List String → List (String × String)
  | [] => []
  | url :: rest =>
      if startsWithGs url then
        match fetch url with
        | .ok content =>
            (zipName ++ "." ++ extOf url, content)
              :: zipEntriesFromUrls zipName fetch rest
        | .error _ => zipEntriesFromUrls zipName fetch rest
      else zipEntriesFromUrls zipName fetch rest

/-- background_testcase_zip_task (background_functions.py lines 282-329):
testcaseData is the dataset list of the target testcase, or none when the
testcase document is missing; the job-scoped upload path and logging are
not modelled. -/
def background_testcase_zip_task (testcaseData : Option (List String))
    (fetch : String → Except String String) (upload : Except String String)
    (project_id version testcase_id : String) : ZipRun :=
  match testcaseData with
  | none => ⟨[wInProgress, wFailed "No datasets found"], [], 0⟩
  | some datasets =>
      if datasets.isEmpty then
        ⟨[wInProgress, wFailed "No datasets found"], [], 0⟩
      else
        let zipName := testcase_id ++ "-" ++ version ++ "-" ++ project_id
        let entries := zipEntriesFromUrls zipName fetch datasets
        match upload with
        | .ok url => ⟨[wInProgress, wCompleted (zipName ++ ".zip") url], entries, 1⟩
        | .error e => ⟨[wInProgress, wFailed e], entries, 1⟩

/-- background_document_zip_task (background_functions.py lines 223-279):
versionFiles is the (name, url) list of the version document, or none when
the version document is missing. -/
def background_document_zip_task (versionFiles : Option (List (String × String)))
    (doc_name : String) (fetch : String → Except String String)
    (upload : Except String String) (project_id version : String) : ZipRun :=
  match versionFiles with
  | none => ⟨[wInProgress, wFailed "No documents found"], [], 0⟩
  | some files =>
      if files.isEmpty then
        ⟨[wInProgress, wFailed "No documents found"], [], 0⟩
      else
        let docs := (files.filter (fun item => item.1 == doc_name)).map
          (fun item => item.2)
        if docs.isEmpty then
          ⟨[wInProgress, wFailed "Specified document found"], [], 0⟩
        else
          let zipName := doc_name ++ "-" ++ version ++ "-" ++ project_id
          let entries := zipEntriesFromUrls zipName fetch docs
          match upload with
          | .ok url => ⟨[wInProgress, wCompleted (zipName ++ ".zip") url], entries, 1⟩
          | .error e => ⟨[wInProgress, wFailed e], entries, 1⟩

/-- background_zip_all_task (background_functions.py lines 332-377):
testcases is the (testcase_id, datasets) list of the version; testcases
with an empty dataset list are dropped by the comprehension, and there is
no up-front emptiness check before the upload. -/
def background_zip_all_task (testcases : List (String × List String))
    (fetch : String → Except String String) (upload : Except String String)
    (project_id version : String) : ZipRun :=
  let datasets := testcases.filter (fun tc => !tc.2.isEmpty)
  let zipName := version ++ "-" ++ project_id
  let entries := datasets.foldr
    (fun tc acc => zipEntriesFromUrls (tc.1 ++ "-" ++ zipName) fetch tc.2 ++ acc)
    []
  match upload with
  | .ok url => ⟨[wInProgress, wCompleted (zipName ++ ".zip") url], entries, 1⟩
  | .error e => ⟨[wInProgress, wFailed e], entries, 1⟩

/-- A job document as stored by the job engine. -/
structure JobDoc where
  project_id : String
  version : String
  testcase_id : String
  uid : String
  job_id : String
  status : JobStatus
deriving DecidableEq

/-- create_download_job (firestore.py lines 228-248): a fresh job record,
created in status pending. -/
def create_download_job (uid project_id version testcase_id job_id : String) :
    JobDoc :=
  ⟨project_id, version, testcase_id, uid, job_id, .pending⟩

/-- create_download_all_job (firestore.py lines 250-268): a fresh job
record for the all target, created in status pending. -/
def create_download_all_job (uid project_id version job_id : String) :
    JobDoc :=
  ⟨project_id, version, "all", uid, job_id, .pending⟩

/-- The job status transitions the lifecycle claim allows. -/
def allowedStep : JobStatus → JobStatus → Bool
  | .pending, .in_progress => true
  | .in_progress, .completed => true
  | .in_progress, .failed => true
  | _, _ => false

/-- A write sequence is valid when, starting from the created pending
status, consecutive stored statuses are related by allowedStep. -/
def validJobTrace (writes : List StatusWrite) : Prop :=
  List.Chain' (fun a b => allowedStep a b = true)
    (JobStatus.pending :: writes.map StatusWrite.status)

/-- A fetch oracle that fails on every url. -/
def fetchFail : String → Except String String :=
  fun _ => Except.error "fetch failed"

/-- A fetch oracle for the partial-failure evaluation: the first dataset
url raises, the second succeeds. -/
def fetch8 : String → Except String String :=
  fun u =>
    if u == "gs://b/a.csv" then Except.error "boom"
    else if u == "gs://b/b.csv" then Except.ok "rows"
    else Except.error "unknown"

/-! ### Concrete sample data for evaluating the reconciliation pass -/

/-- A sample discovered issue labelled with entity id TC-1. -/
def issue0 : Issue :=
  ⟨"KEY-1", "https://site/browse/KEY-1", ["Created_by_Captain", "TC-1"]⟩

/-- A sample search result. -/
def issues0 : List Issue := [issue0]

/-- A sample requested id list: TC-1 matches issue0, TC-2 matches nothing. -/
def ids0 : List String := ["TC-1", "TC-2"]

/-- A sample store giving every entity a title and an unset toolCreated. -/
def store0 : Store := fun _ => [("title", "t"), ("toolCreated", "")]

/-! ### Field-level lemmas -/

theorem getField_setField_same (d : Doc) (k v : String) :
    getField (setField d k v) k = some v := by
  induction d with
  | nil => simp [setField, getField]
  | cons p rest ih =>
      by_cases h : p.1 = k
      · simp [setField, getField, h]
      · simp [setField, getField, h, ih]

theorem getField_setField_ne (d : Doc) (k k0 v : String) (h : k0 ≠ k) :
    getField (setField d k v) k0 = getField d k0 := by
  induction d with
  | nil => simp [setField, getField, Ne.symm h]
  | cons p rest ih =>
      by_cases hp : p.1 = k
      · simp only [setField, hp, if_pos rfl, getField]
        rw [if_neg (by simpa [hp] using h.symm), if_neg (by simpa [hp] using h.symm)]
      · simp only [setField, if_neg hp, getField]
        by_cases hk0 : p.1 = k0
        · simp [hk0]
        · simp [hk0, ih]

theorem getField_updateDoc_notkey (fields : List (String × String)) (d : Doc)
    (k : String) (h : ∀ p ∈ fields, p.1 ≠ k) :
    getField (updateDoc d fields) k = getField d k := by
  induction fields generalizing d with
  | nil => rfl
  | cons p rest ih =>
      have hp : p.1 ≠ k := h p (List.mem_cons_self p rest)
      have hrest : ∀ q ∈ rest, q.1 ≠ k := fun q hq => h q (List.mem_cons_of_mem p hq)
      calc getField (updateDoc (setField d p.1 p.2) rest) k
          = getField (setField d p.1 p.2) k := ih (setField d p.1 p.2) hrest
        _ = getField d k := getField_setField_ne d p.1 k p.2 (fun hk => hp hk.symm)

/-! ### Store-level lemmas about the sync loop -/

theorem syncLoop_not_mem (issues : List Issue) (ids : List String) (s : Store)
    (x : String) (hx : x ∉ ids) : syncLoop issues ids s x = s x := by
  induction ids generalizing s with
  | nil => rfl
  | cons a rest ih =>
      have hxa : x ≠ a := fun h => hx (h ▸ List.mem_cons_self a rest)
      have hxrest : x ∉ rest := fun h => hx (List.mem_cons_of_mem a h)
      calc syncLoop issues rest (update_entity s a (syncFields issues a)) x
          = update_entity s a (syncFields issues a) x := ih _ hxrest
        _ = s x := by simp [update_entity, hxa]

theorem syncLoop_getField_preserved (issues : List Issue) (ids : List String)
    (s : Store) (x k : String)
    (hk : ∀ p ∈ syncFields issues x, p.1 ≠ k) :
    getField (syncLoop issues ids s x) k = getField (s x) k := by
  induction ids generalizing s with
  | nil => rfl
  | cons a rest ih =>
      have step :
          getField (update_entity s a (syncFields issues a) x) k
            = getField (s x) k := by
        by_cases hxa : x = a
        · subst hxa
          simp only [update_entity, if_pos rfl]
          exact getField_updateDoc_notkey (syncFields issues x) (s x) k hk
        · simp [update_entity, hxa]
      calc getField (syncLoop issues rest (update_entity s a (syncFields issues a)) x) k
          = getField (update_entity s a (syncFields issues a) x) k := ih _
        _ = getField (s x) k := step

theorem getField_updateDoc_syncFields (issues : List Issue) (x : String)
    (d : Doc) :
    (∀ m, firstMatch issues x = some m →
        getField (updateDoc d (syncFields issues x)) "toolIssueKey" = some m.key ∧
        getField (updateDoc d (syncFields issues x)) "toolIssueLink" = some m.url ∧
        getField (updateDoc d (syncFields issues x)) "toolCreated" = some "SUCCESS") ∧
    (firstMatch issues x = none →
        getField (updateDoc d (syncFields issues x)) "toolCreated" = some "FAILED") := by
  constructor
  · intro m hm
    simp only [syncFields, hm, updateDoc, List.foldl]
    refine ⟨?_, ?_, ?_⟩
    · rw [getField_setField_ne _ _ _ _ (by decide),
        getField_setField_ne _ _ _ _ (by decide)]
      exact getField_setField_same _ _ _
    · rw [getField_setField_ne _ _ _ _ (by decide)]
      exact getField_setField_same _ _ _
    · exact getField_setField_same _ _ _
  · intro hm
    simp only [syncFields, hm, updateDoc, List.foldl]
    exact getField_setField_same _ _ _

theorem syncLoop_mem_getField (issues : List Issue) (ids : List String)
    (s : Store) (x : String) (hx : x ∈ ids) :
    (∀ m, firstMatch issues x = some m →
        getField (syncLoop issues ids s x) "toolIssueKey" = some m.key ∧
        getField (syncLoop issues ids s x) "toolIssueLink" = some m.url ∧
        getField (syncLoop issues ids s x) "toolCreated" = some "SUCCESS") ∧
    (firstMatch issues x = none →
        getField (syncLoop issues ids s x) "toolCreated" = some "FAILED") := by
  induction ids generalizing s with
  | nil => cases hx
  | cons a rest ih =>
      by_cases hxrest : x ∈ rest
      · exact ih _ hxrest
      · have hxa : x = a := by
          rcases List.mem_cons.mp hx with h | h
          · exact h
          · exact absurd h hxrest
        subst hxa
        have frame :
            ∀ k, getField (syncLoop issues rest (update_entity s x (syncFields issues x)) x) k
              = getField (update_entity s x (syncFields issues x) x) k := by
          intro k
          rw [syncLoop_not_mem issues rest _ x hxrest]
        have base := getField_updateDoc_syncFields issues x (s x)
        constructor
        · intro m hm
          have h3 := base.1 m hm
          refine ⟨?_, ?_, ?_⟩
          · rw [show syncLoop issues (x :: rest) s = syncLoop issues rest (update_entity s x (syncFields issues x)) from rfl,
              frame "toolIssueKey"]
            simpa [update_entity] using h3.1
          · rw [show syncLoop issues (x :: rest) s = syncLoop issues rest (update_entity s x (syncFields issues x)) from rfl,
              frame "toolIssueLink"]
            simpa [update_entity] using h3.2.1
          · rw [show syncLoop issues (x :: rest) s = syncLoop issues rest (update_entity s x (syncFields issues x)) from rfl,
              frame "toolCreated"]
            simpa [update_entity] using h3.2.2
        · intro hm
          rw [show syncLoop issues (x :: rest) s = syncLoop issues rest (update_entity s x (syncFields issues x)) from rfl,
            frame "toolCreated"]
          simpa [update_entity] using base.2 hm

theorem sync_eq_syncLoop (issues : List Issue) (ids : List String) (s : Store) :
    sync_entities_on_alm issues ids s = syncLoop issues ids s := by
  cases ids <;> simp [sync_entities_on_alm, syncLoop]

/-- C1: over a non-empty list of requested entity ids, with the label search
having returned the list of issues, every requested id is written to exactly
one of the two terminal states: if some discovered issue carries the id as a
label (first such issue in list order), the record gets that issue key, its
browse url and toolCreated SUCCESS; otherwise toolCreated FAILED.  The two
outcomes are exhaustive and mutually exclusive. -/
theorem sync_reconciliation_partition (issues : List Issue) (ids : List String)
    (s : Store) (hne : ids ≠ []) (x : String) (hx : x ∈ ids) :
    (∀ m, firstMatch issues x = some m →
        getField (sync_entities_on_alm issues ids s x) "toolIssueKey" = some m.key ∧
        getField (sync_entities_on_alm issues ids s x) "toolIssueLink" = some m.url ∧
        getField (sync_entities_on_alm issues ids s x) "toolCreated" = some "SUCCESS") ∧
    (firstMatch issues x = none →
        getField (sync_entities_on_alm issues ids s x) "toolCreated" = some "FAILED") ∧
    ((getField (sync_entities_on_alm issues ids s x) "toolCreated" = some "SUCCESS" ∧
        getField (sync_entities_on_alm issues ids s x) "toolCreated" ≠ some "FAILED") ∨
     (getField (sync_entities_on_alm issues ids s x) "toolCreated" = some "FAILED" ∧
        getField (sync_entities_on_alm issues ids s x) "toolCreated" ≠ some "SUCCESS")) := by
  rw [sync_eq_syncLoop]
  have H := syncLoop_mem_getField issues ids s x hx
  refine ⟨H.1, H.2, ?_⟩
  cases hm : firstMatch issues x with
  | some m =>
      left
      have h := (H.1 m hm).2.2
      exact ⟨h, by rw [h]; simp⟩
  | none =>
      right
      have h := H.2 hm
      exact ⟨h, by rw [h]; simp⟩

/-- Witness for C1: on the sample data, TC-1 (matched by issue0) ends in
SUCCESS and TC-2 (unmatched) ends in FAILED. -/
theorem sync_reconciliation_partition_witness :
    getField (sync_entities_on_alm issues0 ids0 store0 "TC-1") "toolCreated"
        = some "SUCCESS" ∧
    getField (sync_entities_on_alm issues0 ids0 store0 "TC-2") "toolCreated"
        = some "FAILED" :=
  ⟨((sync_reconciliation_partition issues0 ids0 store0 (by decide) "TC-1"
      (by decide)).1 issue0 (by decide)).2.2,
   (sync_reconciliation_partition issues0 ids0 store0 (by decide) "TC-2"
      (by decide)).2.1 (by decide)⟩

/-- C10: the reconciliation pass is a frame-preserving write: a matched id
has only toolIssueKey, toolIssueLink and toolCreated written, an unmatched
id only toolCreated, and any id not in the requested list keeps its whole
document unchanged. -/
theorem sync_frame_condition (issues : List Issue) (ids : List String)
    (s : Store) :
    (∀ x, x ∉ ids → sync_entities_on_alm issues ids s x = s x) ∧
    (∀ x ∈ ids, ∀ k : String,
        (∀ m, firstMatch issues x = some m →
            k ≠ "toolIssueKey" → k ≠ "toolIssueLink" → k ≠ "toolCreated" →
            getField (sync_entities_on_alm issues ids s x) k = getField (s x) k) ∧
        (firstMatch issues x = none → k ≠ "toolCreated" →
            getField (sync_entities_on_alm issues ids s x) k = getField (s x) k)) := by
  rw [sync_eq_syncLoop]
  constructor
  · intro x hx
    exact syncLoop_not_mem issues ids s x hx
  · intro x _ k
    constructor
    · intro m hm h1 h2 h3
      refine syncLoop_getField_preserved issues ids s x k ?_
      intro p hp
      simp only [syncFields, hm, List.mem_cons, List.not_mem_nil, or_false] at hp
      rcases hp with h | h | h <;> subst h
      · exact fun h => h1 h.symm
      · exact fun h => h2 h.symm
      · exact fun h => h3 h.symm
    · intro hm h3
      refine syncLoop_getField_preserved issues ids s x k ?_
      intro p hp
      simp only [syncFields, hm, List.mem_cons, List.not_mem_nil, or_false] at hp
      subst hp
      exact fun h => h3 h.symm

/-- Witness for C10: on the sample data, an id outside the requested list is
untouched, and the title field of a matched requested id is untouched. -/
theorem sync_frame_condition_witness :
    sync_entities_on_alm issues0 ids0 store0 "OTHER" = store0 "OTHER" ∧
    getField (sync_entities_on_alm issues0 ids0 store0 "TC-1") "title"
        = getField (store0 "TC-1") "title" :=
  ⟨(sync_frame_condition issues0 ids0 store0).1 "OTHER" (by decide),
   ((sync_frame_condition issues0 ids0 store0).2 "TC-1" (by decide) "title").1
      issue0 (by decide) (by decide) (by decide) (by decide)⟩

/-- C6: code bug in the payload mapping.  The testcase summary carries the
ellipsis marker only when the title exceeds 200 characters, but the
requirement summary appends the ellipsis in both branches of the source
conditional: the three-character text abc, well under the threshold, still
produces a summary ending in the ellipsis. -/
theorem requirement_summary_ellipsis_on_short_text :
    get_jira_requirement_payload_summary "R1" "abc" = "[R1] abc..." ∧
    "abc".length ≤ 200 ∧
    get_jira_testcase_payload_summary "abc" = "abc" := by
  refine ⟨by decide, by decide, by decide⟩

/-- C2: code bug in the rate-limit handling of update_testcase.  On a 429
the loop body sleeps for the Retry-After duration (default 5) but then
reaches raise_for_status on the same 429 response, so the exception ends
the call after a single attempt: the available 204 that a retry would have
received is never consumed, no second attempt is made, and the operation
fails immediately instead of retrying up to 5 times. -/
theorem update_429_sleeps_then_raises :
    update_testcase_request trace429
        = ⟨.raised 429, [⟨204, none⟩], 1, 0, [7]⟩ ∧
    update_testcase_request trace429NoHeader
        = ⟨.raised 429, [⟨204, none⟩], 1, 0, [5]⟩ := by
  exact ⟨rfl, rfl⟩

/-- Counterexample to C3: an update call whose first response is 401 and
whose retried request receives 401 again performs two token refreshes, not
exactly one, before the operation gives up with an error. -/
theorem update_401_two_refreshes :
    (update_testcase_request upd401Trace).refreshes = 2 ∧
    (update_testcase_request upd401Trace).result = .raised 401 := by
  exact ⟨rfl, rfl⟩

/-- C3 (amended): a 401 response triggers exactly one token refresh and
exactly one retry of the same request for the create-issue call, the
bulk-create call and each page request of the label search — for the
search this holds at every loop position of every response stream: when
the page request at index i returns 401, the refresh count rises by
exactly one in every outcome, the single retry consumes the response at
index i plus 1, and the loop then raises on a non-2xx retry, returns on a
last page, or resumes at index i plus 2.  The update call instead recurses
into a fresh full attempt after refreshing, so every nested 401 adds one
more refresh, and after the recursion returns the outer call raises on
the original 401 regardless of the outcome of the retry. -/
theorem jira_401_refresh_retry :
    (∀ r2 rest, (create_one_testcase_request (mk401 :: r2 :: rest)).refreshes = 1
        ∧ (create_one_testcase_request (mk401 :: r2 :: rest)).attempts = 2) ∧
    (∀ r2 rest, (create_bulk_issues_request (mk401 :: r2 :: rest)).refreshes = 1
        ∧ (create_bulk_issues_request (mk401 :: r2 :: rest)).attempts = 2) ∧
    (∀ (cloud_domain : String) (respond : Nat → SearchResponse)
        (fuel i : Nat) (acc : List Issue) (refr : Nat),
        (respond i).status = 401 →
        searchGo cloud_domain respond (fuel + 1) i acc refr =
          (if (respond (i + 1)).status ≥ 400 then
            some (.raised (respond (i + 1)).status (refr + 1))
          else if (respond (i + 1)).isLast then
            some (.ok
              (acc ++ normalizeIssues cloud_domain (respond (i + 1)).rawIssues)
              (refr + 1))
          else
            searchGo cloud_domain respond fuel (i + 2)
              (acc ++ normalizeIssues cloud_domain (respond (i + 1)).rawIssues)
              (refr + 1))) ∧
    (∀ cloud_domain raw,
        search_issues_by_label cloud_domain (pageRespond401 raw) 5
          = some (.ok (normalizeIssues cloud_domain raw) 1)) ∧
    (∀ rest,
        (update_testcase_request (mk401 :: rest)).refreshes
            = (update_testcase_request rest).refreshes + 1 ∧
        (update_testcase_request (mk401 :: rest)).result
            = propagate401 (update_testcase_request rest).result) := by
  refine ⟨?_, ?_, ?_, ?_, ?_⟩
  · intro r2 rest
    by_cases h : r2.status ≥ 400 <;>
      simp [create_one_testcase_request, mk401, h]
  · intro r2 rest
    by_cases h : r2.status ≥ 400 <;>
      simp [create_bulk_issues_request, mk401, h]
  · intro cloud_domain respond fuel i acc refr h
    simp [searchGo, h]
  · intro cloud_domain raw
    simp [search_issues_by_label, searchGo, pageRespond401]
  · intro rest
    exact ⟨rfl, rfl⟩

/-- Witness for C3 (amended): a concrete stream whose first page request
returns 401 and whose retried request delivers one successful final page;
exactly one refresh is counted, the retry response is the one consumed,
and the loop returns its normalized issues. -/
theorem jira_401_refresh_retry_witness :
    searchGo "https://site"
        (pageRespond401 [⟨"KEY-9", ["Created_by_Captain"]⟩]) 3 0 [] 0
      = some (SearchOut.ok
          (normalizeIssues "https://site" [⟨"KEY-9", ["Created_by_Captain"]⟩])
          1) := by
  have H := jira_401_refresh_retry.2.2.1 "https://site"
    (pageRespond401 [⟨"KEY-9", ["Created_by_Captain"]⟩]) 2 0 [] 0 (by decide)
  simpa [pageRespond401] using H

/-- C5: re-running the sync on a version where every NEW entity already has
toolCreated SUCCESS issues zero bulk-create calls: the selection filters
keep nothing, so the batching loops have no iterations. -/
theorem sync_rerun_zero_creates (requirements testcases : List SyncEntity)
    (h : ∀ e ∈ requirements ++ testcases,
        e.change_analysis_status = "NEW" → e.toolCreated = some "SUCCESS") :
    bulkCreateCalls requirements testcases = 0 := by
  have hr : newRequirements requirements = [] := by
    rw [newRequirements, List.filter_eq_nil_iff]
    intro e he
    by_cases hs : e.change_analysis_status = "NEW"
    · have ht := h e (List.mem_append_left _ he) hs
      simp [hs, ht]
    · simp [hs]
  have htc : newTestcases testcases = [] := by
    rw [newTestcases, List.filter_eq_nil_iff]
    intro e he
    by_cases hs : e.change_analysis_status = "NEW"
    · have ht := h e (List.mem_append_right _ he) hs
      simp [hs, ht]
    · simp [hs]
  have hchunks : chunks40 ([] : List SyncEntity) = [] := by
    rw [chunks40]
    rfl
  rw [bulkCreateCalls, hr, htc, hchunks]
  rfl

/-- Witness for C5: with two sample entity lists whose NEW members already
carry SUCCESS, no bulk-create call is issued. -/
theorem sync_rerun_zero_creates_witness : bulkCreateCalls reqs0 tcs0 = 0 :=
  sync_rerun_zero_creates reqs0 tcs0 (by decide)

/-- On the stream that never sets the last-page flag, the search loop is
still running after any number of iterations, whatever the page index and
accumulator. -/
theorem searchGo_neverLast (cloud_domain : String) :
    ∀ fuel i acc refr,
      searchGo cloud_domain neverLastStream fuel i acc refr = none := by
  intro fuel
  induction fuel with
  | zero => intro i acc refr; rfl
  | succ n ih =>
      intro i acc refr
      simpa [searchGo, neverLastStream, normalizeIssues] using ih (i + 1) acc refr

/-- C7: code bug in the pagination of search_issues_by_label.  The source
loops while the tracker has not set isLast and has no iteration or
total-count bound, so on a response stream that never sets the last-page
flag the operation never returns, however many loop iterations are
observed. -/
theorem search_never_last_loops (cloud_domain : String) (fuel : Nat) :
    search_issues_by_label cloud_domain neverLastStream fuel = none :=
  searchGo_neverLast cloud_domain fuel 0 [] 0

/-- Counterexample to C4: the all-testcases archive task has no zero-file
check: with no testcases at all it builds an empty archive, performs the
upload, and ends completed instead of failed. -/
theorem zip_all_zero_files_completes :
    (background_zip_all_task [] fetchFail (Except.ok "https://gcs/archive.zip")
        "P1" "V1").uploads = 1 ∧
    ((background_zip_all_task [] fetchFail (Except.ok "https://gcs/archive.zip")
        "P1" "V1").writes.map StatusWrite.status)
        = [.in_progress, .completed] ∧
    (background_zip_all_task [] fetchFail (Except.ok "https://gcs/archive.zip")
        "P1" "V1").entries = [] := by
  exact ⟨rfl, rfl, rfl⟩

/-- C4 (amended): the single-testcase and named-document archive tasks fail
up front with a descriptive error and perform no upload when their target
resolves to no files (missing testcase or empty dataset list; missing
version document, empty file list, or no file of the requested name); the
all-testcases task performs no such check and always uploads, ending
completed whenever the upload succeeds, even with zero files. -/
theorem archive_zero_files_behavior :
    (∀ fetch upload p v t,
        (background_testcase_zip_task none fetch upload p v t).uploads = 0 ∧
        (background_testcase_zip_task none fetch upload p v t).writes
          = [wInProgress, wFailed "No datasets found"]) ∧
    (∀ fetch upload p v t,
        (background_testcase_zip_task (some []) fetch upload p v t).uploads = 0 ∧
        (background_testcase_zip_task (some []) fetch upload p v t).writes
          = [wInProgress, wFailed "No datasets found"]) ∧
    (∀ doc_name fetch upload p v,
        (background_document_zip_task none doc_name fetch upload p v).uploads = 0 ∧
        (background_document_zip_task none doc_name fetch upload p v).writes
          = [wInProgress, wFailed "No documents found"]) ∧
    (∀ files doc_name fetch upload p v,
        files.filter (fun item => item.1 == doc_name) = [] →
        (background_document_zip_task (some files) doc_name fetch upload p v).uploads = 0 ∧
        ∃ e, (background_document_zip_task (some files) doc_name fetch upload p v).writes
          = [wInProgress, wFailed e]) ∧
    (∀ testcases fetch url p v,
        (background_zip_all_task testcases fetch (Except.ok url) p v).uploads = 1 ∧
        ((background_zip_all_task testcases fetch (Except.ok url) p v).writes.map
            StatusWrite.status) = [.in_progress, .completed]) := by
  refine ⟨?_, ?_, ?_, ?_, ?_⟩
  · intro fetch upload p v t
    exact ⟨rfl, rfl⟩
  · intro fetch upload p v t
    exact ⟨rfl, rfl⟩
  · intro doc_name fetch upload p v
    exact ⟨rfl, rfl⟩
  · intro files doc_name fetch upload p v hfil
    by_cases hf : files.isEmpty
    · constructor
      · simp [background_document_zip_task, hf]
      · exact ⟨"No documents found", by simp [background_document_zip_task, hf]⟩
    · have hdocs :
          ((files.filter (fun item => item.1 == doc_name)).map
            (fun item => item.2)).isEmpty = true := by
        rw [hfil]
        rfl
      constructor
      · simp [background_document_zip_task, hf, hfil]
      · exact ⟨"Specified document found",
          by simp [background_document_zip_task, hf, hfil]⟩
  · intro testcases fetch url p v
    exact ⟨rfl, by simp [background_zip_all_task, wInProgress, wCompleted]⟩

/-- Witness for C4 (amended): a version with one file that does not match
the requested document name fails with no upload. -/
theorem archive_zero_files_behavior_witness :
    (background_document_zip_task (some [("specs.pdf", "gs://b/specs.pdf")])
        "missing.pdf" fetchFail (Except.ok "u") "P1" "V1").uploads = 0 :=
  (archive_zero_files_behavior.2.2.2.1 [("specs.pdf", "gs://b/specs.pdf")]
    "missing.pdf" fetchFail (Except.ok "u") "P1" "V1" (by decide)).1

/-- C8: a single-testcase archive job over datasets u1, u2 where fetching
u1 raises and u2 succeeds writes exactly one archive entry (the one for
u2), still performs the upload, and ends completed, not failed. -/
theorem zip_partial_failure_completes (u1 u2 c e url p v t : String)
    (fetch : String → Except String String)
    (h1 : fetch u1 = Except.error e) (h2 : fetch u2 = Except.ok c)
    (hg1 : startsWithGs u1 = true) (hg2 : startsWithGs u2 = true) :
    (background_testcase_zip_task (some [u1, u2]) fetch (Except.ok url)
        p v t).entries
      = [(t ++ "-" ++ v ++ "-" ++ p ++ "." ++ extOf u2, c)] ∧
    (background_testcase_zip_task (some [u1, u2]) fetch (Except.ok url)
        p v t).uploads = 1 ∧
    ((background_testcase_zip_task (some [u1, u2]) fetch (Except.ok url)
        p v t).writes.map StatusWrite.status)
      = [.in_progress, .completed] := by
  have hne : ([u1, u2] : List String).isEmpty = false := rfl
  refine ⟨?_, ?_, ?_⟩ <;>
    simp [background_testcase_zip_task, hne, zipEntriesFromUrls, hg1, hg2,
      h1, h2, wInProgress, wCompleted]

/-- Witness for C8: concrete datasets where the first fetch raises and the
second returns rows; the archive holds exactly the entry for the second
url and the job completes. -/
theorem zip_partial_failure_completes_witness :
    (background_testcase_zip_task (some ["gs://b/a.csv", "gs://b/b.csv"])
        fetch8 (Except.ok "https://r") "P1" "V1" "TC-1").entries
      = [("TC-1-V1-P1.csv", "rows")] ∧
    (background_testcase_zip_task (some ["gs://b/a.csv", "gs://b/b.csv"])
        fetch8 (Except.ok "https://r") "P1" "V1" "TC-1").uploads = 1 ∧
    ((background_testcase_zip_task (some ["gs://b/a.csv", "gs://b/b.csv"])
        fetch8 (Except.ok "https://r") "P1" "V1" "TC-1").writes.map
        StatusWrite.status) = [.in_progress, .completed] := by
  have H := zip_partial_failure_completes "gs://b/a.csv" "gs://b/b.csv"
    "rows" "boom" "https://r" "P1" "V1" "TC-1" fetch8 (by rfl) (by rfl)
    (by decide) (by decide)
  exact H

/-- Every run of the single-testcase archive task writes in_progress and
then exactly one terminal status. -/
theorem testcase_task_shape (testcaseData : Option (List String))
    (fetch : String → Except String String) (upload : Except String String)
    (p v t : String) :
    ∃ w, (background_testcase_zip_task testcaseData fetch upload p v t).writes
        = [wInProgress, w]
      ∧ (w.status = .completed ∨ w.status = .failed) := by
  cases testcaseData with
  | none => exact ⟨wFailed "No datasets found", rfl, Or.inr rfl⟩
  | some ds =>
      by_cases h : ds.isEmpty
      · refine ⟨wFailed "No datasets found", ?_, Or.inr rfl⟩
        simp [background_testcase_zip_task, h]
      · cases upload with
        | ok url =>
            refine ⟨wCompleted ((t ++ "-" ++ v ++ "-" ++ p) ++ ".zip") url, ?_,
              Or.inl rfl⟩
            simp [background_testcase_zip_task, h]
        | error e =>
            refine ⟨wFailed e, ?_, Or.inr rfl⟩
            simp [background_testcase_zip_task, h]

/-- Every run of the named-document archive task writes in_progress and
then exactly one terminal status. -/
theorem document_task_shape (versionFiles : Option (List (String × String)))
    (doc_name : String) (fetch : String → Except String String)
    (upload : Except String String) (p v : String) :
    ∃ w, (background_document_zip_task versionFiles doc_name fetch upload p v).writes
        = [wInProgress, w]
      ∧ (w.status = .completed ∨ w.status = .failed) := by
  cases versionFiles with
  | none => exact ⟨wFailed "No documents found", rfl, Or.inr rfl⟩
  | some files =>
      by_cases hf : files.isEmpty
      · refine ⟨wFailed "No documents found", ?_, Or.inr rfl⟩
        simp [background_document_zip_task, hf]
      · by_cases hd : ((files.filter (fun item => item.1 == doc_name)).map
            (fun item => item.2)).isEmpty
        · refine ⟨wFailed "Specified document found", ?_, Or.inr rfl⟩
          simp [background_document_zip_task, hf, hd]
        · cases upload with
          | ok url =>
              refine ⟨wCompleted ((doc_name ++ "-" ++ v ++ "-" ++ p) ++ ".zip") url,
                ?_, Or.inl rfl⟩
              simp [background_document_zip_task, hf, hd]
          | error e =>
              refine ⟨wFailed e, ?_, Or.inr rfl⟩
              simp [background_document_zip_task, hf, hd]

/-- Every run of the all-testcases archive task writes in_progress and then
exactly one terminal status. -/
theorem zip_all_task_shape (testcases : List (String × List String))
    (fetch : String → Except String String) (upload : Except String String)
    (p v : String) :
    ∃ w, (background_zip_all_task testcases fetch upload p v).writes
        = [wInProgress, w]
      ∧ (w.status = .completed ∨ w.status = .failed) := by
  cases upload with
  | ok url =>
      refine ⟨wCompleted ((v ++ "-" ++ p) ++ ".zip") url, ?_, Or.inl rfl⟩
      simp [background_zip_all_task]
  | error e =>
      refine ⟨wFailed e, ?_, Or.inr rfl⟩
      simp [background_zip_all_task]

/-- Writes of the shape in_progress then terminal form a valid trace from
pending. -/
theorem validJobTrace_of_shape (ws : List StatusWrite) (w : StatusWrite)
    (h : ws = [wInProgress, w])
    (ht : w.status = .completed ∨ w.status = .failed) : validJobTrace ws := by
  subst h
  rcases ht with h | h <;>
    simp [validJobTrace, wInProgress, h, allowedStep, List.chain'_cons]

/-- C9: every archive job record is created in status pending, and each
task run writes in_progress followed by exactly one terminal status, so
every stored status is one of the four values and the full write sequence
only ever steps pending to in_progress and in_progress to a terminal
state, which is final. -/
theorem job_status_lifecycle (uid p v t job_id doc_name : String)
    (testcaseData : Option (List String))
    (versionFiles : Option (List (String × String)))
    (testcases : List (String × List String))
    (fetch : String → Except String String) (upload : Except String String) :
    (create_download_job uid p v t job_id).status = .pending ∧
    (create_download_all_job uid p v job_id).status = .pending ∧
    (∃ w, (background_testcase_zip_task testcaseData fetch upload p v t).writes
        = [wInProgress, w] ∧ (w.status = .completed ∨ w.status = .failed)) ∧
    (∃ w, (background_document_zip_task versionFiles doc_name fetch upload p v).writes
        = [wInProgress, w] ∧ (w.status = .completed ∨ w.status = .failed)) ∧
    (∃ w, (background_zip_all_task testcases fetch upload p v).writes
        = [wInProgress, w] ∧ (w.status = .completed ∨ w.status = .failed)) ∧
    validJobTrace (background_testcase_zip_task testcaseData fetch upload p v t).writes ∧
    validJobTrace (background_document_zip_task versionFiles doc_name fetch upload p v).writes ∧
    validJobTrace (background_zip_all_task testcases fetch upload p v).writes := by
  obtain ⟨w1, hw1, ht1⟩ := testcase_task_shape testcaseData fetch upload p v t
  obtain ⟨w2, hw2, ht2⟩ := document_task_shape versionFiles doc_name fetch upload p v
  obtain ⟨w3, hw3, ht3⟩ := zip_all_task_shape testcases fetch upload p v
  exact ⟨rfl, rfl, ⟨w1, hw1, ht1⟩, ⟨w2, hw2, ht2⟩, ⟨w3, hw3, ht3⟩,
    validJobTrace_of_shape _ w1 hw1 ht1,
    validJobTrace_of_shape _ w2 hw2 ht2,
    validJobTrace_of_shape _ w3 hw3 ht3⟩

end CaptainTool
